import Mathlib

/-!
Shallow embedding of `django_spanner/creation.py` (class `DatabaseCreation`).

The module has two independent pieces:

* `create_test_db` / `_create_test_db`: the test-database creation
  orchestrator.  Its observable behaviour is a sequence of external calls
  (create, destroy, log, prompt, connection updates, serialization, the
  `createcachetable` command, the final connectivity check) ending either in
  a normal return of the test database name or in `sys.exit(code)`.  We model
  one invocation as a function from an environment (which attempt fails,
  what the user types at the prompt) to a trace of events plus an outcome.
  The local variable `confirm` may be read while unassigned in Python (a
  `NameError`); we model that path as `none`, so the function returns
  `Option (List Event × Outcome)`.

* `mark_skips`: mutates test-case classes, replacing listed methods by
  `unittest.skip("unsupported by Spanner")(method)`.  We model the mutable
  method table as a function from `(test_case_name, method_name)` to a
  `Method` value, where the `skip` decorator is a constructor wrapping the
  previous method, and `invoke` gives the observable behaviour of calling a
  method (the outer skip wrapper raises `SkipTest(reason)` without running
  the wrapped function).
-/

namespace SpannerCreation

/-- Outcome of one invocation: normal return of the database name, or
`sys.exit(code)`. -/
inductive Outcome where
  | ret (name : String)
  | exit (code : Nat)
deriving DecidableEq, Repr

/-- Observable events of one `create_test_db` invocation, in order. -/
inductive Event where
  | markSkipsEv
  | log (msg : String)
  | prompt (text : String)
  | executeCreate (dbname : String)
  | destroy (dbname : String)
  | close
  | setSettingsName (al : String) (name : String)
  | setConnName (name : String)
  | serializeDb
  | createCacheTable (al : String)
  | ensureConnection
deriving DecidableEq, Repr

/-- Environment of one invocation: the resolved test database name
(`_get_test_db_name`), connection alias, the display string produced by
`_get_database_display_str`, whether each service call raises (with the
exception text), the string the user types at the prompt, and the
`RUNNING_SPANNER_BACKEND_TESTS` environment flag. -/
structure Env where
  testDbName : String
  dbAlias : String
  displayStr : String
  firstCreateErr : Option String
  promptInput : String
  destroyErr : Option String
  secondCreateErr : Option String
  runningBackendTests : Bool
deriving Repr

/-- The exact prompt text of `_create_test_db`:
`"Type 'yes' if you would like to try deleting the test database '%s', or
'no' to cancel: "` with the name substituted. -/
def promptText (name : String) : String :=
  ("Type \x27yes\x27 if you would like to try deleting the test database \x27")
    ++ name ++ ("\x27, or \x27no\x27 to cancel: ")

/-- `self.log("Got an error creating the test database: %s" % e)` -/
def creationErrLog (e : String) : Event :=
  Event.log (("Got an error creating the test database: ") ++ e)

/-- `self.log("Got an error recreating the test database: %s" % e)` -/
def recreationErrLog (e : String) : Event :=
  Event.log (("Got an error recreating the test database: ") ++ e)

/-- The `verbosity >= 1` log line emitted before `_destroy_test_db`. -/
def destroyLog (verbosity : Nat) (displayStr : String) : List Event :=
  if verbosity ≥ 1 then
    [Event.log (("Destroying old test database for alias ") ++ displayStr ++ ("..."))]
  else []

/-- Python evaluation of `autoclobber or confirm == "yes"`: `or`
short-circuits, and reading `confirm` while unassigned (`none`) is a
`NameError`, modelled as `none`. -/
def evalDisposition (autoclobber : Bool) (confirm : Option String) : Option Bool :=
  if autoclobber then some true
  else confirm.map (fun c => decide (c = ("yes")))

/-- The `try: destroy; create` block taken on an affirmative disposition:
destroy the database, recreate it, and on any exception log the recreation
error and `sys.exit(2)`. -/
def clobberBranch (env : Env) (verbosity : Nat) : List Event × Outcome :=
  let name := env.testDbName
  let t := destroyLog verbosity env.displayStr
  match env.destroyErr with
  | some e2 => (t ++ [Event.destroy name, recreationErrLog e2], Outcome.exit 2)
  | none =>
    match env.secondCreateErr with
    | some e2 =>
      (t ++ [Event.destroy name, Event.executeCreate name, recreationErrLog e2],
        Outcome.exit 2)
    | none =>
      (t ++ [Event.destroy name, Event.executeCreate name], Outcome.ret name)

/-- `DatabaseCreation._create_test_db(verbosity, autoclobber, keepdb)`:
attempt the create; on exception, return at once if `keepdb`, otherwise log
the error, prompt unless `autoclobber`, and either clobber (destroy and
recreate, exiting 2 on a second failure) or log cancellation and exit 1. -/
def _create_test_db (env : Env) (verbosity : Nat) (autoclobber keepdb : Bool) :
    Option (List Event × Outcome) :=
  let name := env.testDbName
  match env.firstCreateErr with
  | none => some ([Event.executeCreate name], Outcome.ret name)
  | some e =>
    if keepdb then some ([Event.executeCreate name], Outcome.ret name)
    else
      let confirm : Option String :=
        if autoclobber then none else some env.promptInput
      let t1 := [Event.executeCreate name, creationErrLog e] ++
        (if autoclobber then [] else [Event.prompt (promptText name)])
      match evalDisposition autoclobber confirm with
      | none => none
      | some d =>
        if d then
          let r := clobberBranch env verbosity
          some (t1 ++ r.1, r.2)
        else
          some (t1 ++ [Event.log ("Tests cancelled.")], Outcome.exit 1)

/-- `DatabaseCreation.create_test_db(verbosity, autoclobber, serialize,
keepdb)`: optionally register skips, log the action line, run
`_create_test_db`, then close the connection, point both settings at the
test database name, optionally serialize, provision the cache table, ensure
a connection, and return the name.  If `_create_test_db` exits the process,
none of the later steps happen.  `actionLog` is the part before
`_create_test_db` runs: the optional `mark_skips` call (gated by the
environment flag) and the `verbosity >= 1` action line. -/
def actionLog (env : Env) (verbosity : Nat) (keepdb : Bool) : List Event :=
  (if env.runningBackendTests then [Event.markSkipsEv] else []) ++
  (if verbosity ≥ 1 then
    [Event.log ((if keepdb then ("Using existing") else ("Creating")) ++
      (" test database for alias ") ++ env.displayStr ++ ("..."))]
  else [])

/-- The rest of `DatabaseCreation.create_test_db` after `actionLog`. -/
def create_test_db (env : Env) (verbosity : Nat)
    (autoclobber serialize keepdb : Bool) : Option (List Event × Outcome) :=
  let name := env.testDbName
  let t1 := actionLog env verbosity keepdb
  match _create_test_db env verbosity autoclobber keepdb with
  | none => none
  | some (t2, Outcome.exit c) => some (t1 ++ t2, Outcome.exit c)
  | some (t2, Outcome.ret _) =>
    some (t1 ++ t2 ++
      [Event.close,
        Event.setSettingsName env.dbAlias name,
        Event.setConnName name] ++
      (if serialize then [Event.serializeDb] else []) ++
      [Event.createCacheTable env.dbAlias, Event.ensureConnection],
      Outcome.ret name)

/-- Texts of the interactive prompts shown during a trace. -/
def promptTexts (tr : List Event) : List String :=
  tr.filterMap (fun ev => match ev with
    | Event.prompt t => some t
    | _ => none)

/-- Names passed to `_destroy_test_db` during a trace, in order. -/
def destroyCalls (tr : List Event) : List String :=
  tr.filterMap (fun ev => match ev with
    | Event.destroy n => some n
    | _ => none)

/-- Messages passed to `self.log` during a trace, in order. -/
def logMsgs (tr : List Event) : List String :=
  tr.filterMap (fun ev => match ev with
    | Event.log m => some m
    | _ => none)

/-- Number of `serialize_db_to_string` calls in a trace. -/
def serializeCount (tr : List Event) : Nat :=
  tr.countP (fun ev => match ev with
    | Event.serializeDb => true
    | _ => false)

/-! ### The `mark_skips` model -/

/-- A test-case method: either an original method (identified by a number)
or the result of applying `unittest.skip(reason)` to a previous method,
which wraps it in a fresh `skip_wrapper` function. -/
inductive Method where
  | original (id : Nat)
  | skipWrapper (reason : String) (inner : Method)
deriving DecidableEq, Repr

/-- Observable result of calling a method: the original behaviour runs, or
`SkipTest(reason)` is raised.  The outermost `skip_wrapper` raises without
calling the function it wraps. -/
inductive InvokeResult where
  | ran (id : Nat)
  | skipped (reason : String)
deriving DecidableEq, Repr

/-- Calling a method. -/
def invoke : Method → InvokeResult
  | Method.original i => InvokeResult.ran i
  | Method.skipWrapper r _ => InvokeResult.skipped r

/-- Python `str.split(".")` on the character list (always returns at least
one piece; splitting the empty string gives `[[]]`). -/
def splitOnDotChars : List Char → List (List Char)
  | [] => [[]]
  | c :: cs =>
    match splitOnDotChars cs with
    | [] => [[c]]
    | h :: t => if c = ('.' : Char) then [] :: h :: t else (c :: h) :: t

/-- Python `test_name.split(".")`. -/
def pySplitDot (s : String) : List String :=
  (splitOnDotChars s.data).map String.mk

/-- Rejoin pieces with dots (used to recover the head of `rpartition`). -/
def joinDot : List String → String
  | [] => ("")
  | [s] => s
  | s :: rest => s ++ (".") ++ joinDot rest

/-- Python `test_name.rpartition(".")`, keeping head and tail:
`(test_case_name, method_name)`. -/
def rpartitionDot (s : String) : String × String :=
  let parts := pySplitDot s
  (joinDot parts.dropLast, parts.getLastD (""))

/-- `test_app = test_name.split(".")[0]`. -/
def testApp (test_name : String) : String :=
  (pySplitDot test_name).headD ("")

/-- The `(test_case_name, method_name)` pair a skip entry targets. -/
def skipKey (test_name : String) : String × String :=
  rpartitionDot test_name

/-- The skip reason used by `mark_skips`. -/
def skipReason : String := ("unsupported by Spanner")

/-- One iteration of the `mark_skips` loop: if the entry's app is installed,
`setattr` replaces the method at its key by `skip(reason)(method)`;
otherwise the state is untouched. -/
def markSkipsEntry (installed_apps : List String)
    (st : String × String → Method) (test_name : String) :
    String × String → Method :=
  if testApp test_name ∈ installed_apps then
    fun k =>
      if k = skipKey test_name then
        Method.skipWrapper skipReason (st (skipKey test_name))
      else st k
  else st

/-- `DatabaseCreation.mark_skips`: fold the loop over
`connection.features.skip_tests`. -/
def mark_skips (installed_apps : List String) (skip_tests : List String)
    (st : String × String → Method) : String × String → Method :=
  skip_tests.foldl (markSkipsEntry installed_apps) st

/-! ### Helper lemmas about traces -/

/-- Every event of the `verbosity` log before destroy is a log event. -/
theorem destroyLog_mem (v : Nat) (d : String) (ev : Event)
    (h : ev ∈ destroyLog v d) : ∃ m, ev = Event.log m := by
  unfold destroyLog at h
  split at h <;> simp at h
  exact ⟨_, h⟩

/-- `promptTexts` distributes over concatenation. -/
theorem promptTexts_append (a b : List Event) :
    promptTexts (a ++ b) = promptTexts a ++ promptTexts b := by
  simp [promptTexts]

/-- `destroyCalls` distributes over concatenation. -/
theorem destroyCalls_append (a b : List Event) :
    destroyCalls (a ++ b) = destroyCalls a ++ destroyCalls b := by
  simp [destroyCalls]

/-- `logMsgs` distributes over concatenation. -/
theorem logMsgs_append (a b : List Event) :
    logMsgs (a ++ b) = logMsgs a ++ logMsgs b := by
  simp [logMsgs]

/-- `serializeCount` adds over concatenation. -/
theorem serializeCount_append (a b : List Event) :
    serializeCount (a ++ b) = serializeCount a + serializeCount b := by
  simp [serializeCount]

/-- The clobber branch calls `_destroy_test_db` exactly once, on the test
database name, in each of its three cases. -/
theorem clobberBranch_destroyCalls (env : Env) (v : Nat) :
    destroyCalls (clobberBranch env v).1 = [env.testDbName] := by
  unfold clobberBranch
  cases env.destroyErr <;> cases env.secondCreateErr <;>
    simp [destroyCalls, recreationErrLog] <;>
    (intro a ha; obtain ⟨m, rfl⟩ := destroyLog_mem _ _ _ ha; rfl)

/-- The clobber branch never prompts. -/
theorem clobberBranch_promptTexts (env : Env) (v : Nat) :
    promptTexts (clobberBranch env v).1 = [] := by
  unfold clobberBranch
  cases env.destroyErr <;> cases env.secondCreateErr <;>
    simp [promptTexts, recreationErrLog] <;>
    (intro a ha; obtain ⟨m, rfl⟩ := destroyLog_mem _ _ _ ha; rfl)

/-- Events that `_create_test_db` can emit (no connection/serialization/
cache-table administration happens inside it). -/
def Event.isBasic : Event → Bool
  | Event.executeCreate _ => true
  | Event.log _ => true
  | Event.prompt _ => true
  | Event.destroy _ => true
  | _ => false

/-- Every event of the clobber branch is basic. -/
theorem clobberBranch_all_basic (env : Env) (v : Nat) :
    ∀ ev ∈ (clobberBranch env v).1, ev.isBasic = true := by
  unfold clobberBranch
  cases env.destroyErr <;> cases env.secondCreateErr <;>
    (intro ev hev
     simp [recreationErrLog] at hev
     rcases hev with hev | hev
     · obtain ⟨m, rfl⟩ := destroyLog_mem _ _ _ hev
       rfl
     · first
       | (rcases hev with rfl | rfl
          · rfl
          · rfl)
       | (rcases hev with rfl | rfl | rfl
          · rfl
          · rfl
          · rfl))

/-- Reduction: the first creation attempt succeeds. -/
theorem inner_ok (env : Env) (v : Nat) (a k : Bool)
    (hf : env.firstCreateErr = none) :
    _create_test_db env v a k =
      some ([Event.executeCreate env.testDbName], Outcome.ret env.testDbName) := by
  unfold _create_test_db
  rw [hf]

/-- Reduction: the first creation attempt fails and `keepdb` is set. -/
theorem inner_keepdb (env : Env) (v : Nat) (a : Bool) (e : String)
    (hf : env.firstCreateErr = some e) :
    _create_test_db env v a true =
      some ([Event.executeCreate env.testDbName], Outcome.ret env.testDbName) := by
  unfold _create_test_db
  rw [hf]
  rfl

/-- Reduction: creation fails, `keepdb` unset, `autoclobber` set: no prompt,
straight to the clobber branch. -/
theorem inner_autoclobber (env : Env) (v : Nat) (e : String)
    (hf : env.firstCreateErr = some e) :
    _create_test_db env v true false =
      some ([Event.executeCreate env.testDbName, creationErrLog e] ++
        (clobberBranch env v).1, (clobberBranch env v).2) := by
  unfold _create_test_db
  rw [hf]
  simp [evalDisposition]

/-- Reduction: creation fails, no `keepdb`/`autoclobber`, the user types
exactly `yes`: prompt, then the clobber branch. -/
theorem inner_prompt_yes (env : Env) (v : Nat) (e : String)
    (hf : env.firstCreateErr = some e) (hy : env.promptInput = ("yes")) :
    _create_test_db env v false false =
      some ([Event.executeCreate env.testDbName, creationErrLog e,
        Event.prompt (promptText env.testDbName)] ++
        (clobberBranch env v).1, (clobberBranch env v).2) := by
  unfold _create_test_db
  rw [hf]
  simp [evalDisposition, hy]

/-- Reduction: creation fails, no `keepdb`/`autoclobber`, the user types
anything but `yes`: prompt, cancellation log, `sys.exit(1)`. -/
theorem inner_prompt_no (env : Env) (v : Nat) (e : String)
    (hf : env.firstCreateErr = some e) (hy : env.promptInput ≠ ("yes")) :
    _create_test_db env v false false =
      some ([Event.executeCreate env.testDbName, creationErrLog e,
        Event.prompt (promptText env.testDbName), Event.log ("Tests cancelled.")],
        Outcome.exit 1) := by
  unfold _create_test_db
  rw [hf]
  simp [evalDisposition, hy]

/-- Every trace `_create_test_db` produces consists of basic events. -/
theorem inner_all_basic (env : Env) (v : Nat) (a k : Bool)
    (tr : List Event) (out : Outcome)
    (h : _create_test_db env v a k = some (tr, out)) :
    ∀ ev ∈ tr, ev.isBasic = true := by
  cases hf : env.firstCreateErr with
  | none =>
    rw [inner_ok env v a k hf] at h
    obtain ⟨rfl, rfl⟩ : tr = _ ∧ out = _ := by simpa using h.symm
    simp [Event.isBasic]
  | some e =>
    cases k with
    | true =>
      rw [inner_keepdb env v a e hf] at h
      obtain ⟨rfl, rfl⟩ : tr = _ ∧ out = _ := by simpa using h.symm
      simp [Event.isBasic]
    | false =>
      cases a with
      | true =>
        rw [inner_autoclobber env v e hf] at h
        obtain ⟨rfl, rfl⟩ : tr = _ ∧ out = _ := by simpa using h.symm
        intro ev hev
        rcases List.mem_cons.1 hev with rfl | hev
        · rfl
        rcases List.mem_cons.1 hev with rfl | hev
        · rfl
        exact clobberBranch_all_basic env v ev hev
      | false =>
        by_cases hy : env.promptInput = ("yes")
        · rw [inner_prompt_yes env v e hf hy] at h
          obtain ⟨rfl, rfl⟩ : tr = _ ∧ out = _ := by simpa using h.symm
          intro ev hev
          rcases List.mem_cons.1 hev with rfl | hev
          · rfl
          rcases List.mem_cons.1 hev with rfl | hev
          · rfl
          rcases List.mem_cons.1 hev with rfl | hev
          · rfl
          exact clobberBranch_all_basic env v ev hev
        · rw [inner_prompt_no env v e hf hy] at h
          obtain ⟨rfl, rfl⟩ : tr = _ ∧ out = _ := by simpa using h.symm
          simp [Event.isBasic, creationErrLog]

/-- Basic traces contain no serialization calls. -/
theorem serializeCount_zero_of_basic (tr : List Event)
    (h : ∀ ev ∈ tr, ev.isBasic = true) : serializeCount tr = 0 := by
  unfold serializeCount
  rw [List.countP_eq_zero]
  intro ev hev
  have hb := h ev hev
  cases ev <;> simp_all [Event.isBasic]

/-- Basic traces contain none of the administrative events of the outer
`create_test_db`. -/
theorem admin_not_mem_of_basic (tr : List Event)
    (h : ∀ ev ∈ tr, ev.isBasic = true) :
    Event.serializeDb ∉ tr ∧ Event.close ∉ tr ∧
      (∀ al, Event.createCacheTable al ∉ tr) ∧ Event.ensureConnection ∉ tr := by
  refine ⟨fun hm => ?_, fun hm => ?_, fun al hm => ?_, fun hm => ?_⟩ <;>
    simpa [Event.isBasic] using h _ hm

/-- With a successful destroy, the clobber branch destroys then recreates. -/
theorem clobberBranch_destroy_then_create (env : Env) (v : Nat)
    (hd : env.destroyErr = none) :
    ∃ q, (clobberBranch env v).1 =
      destroyLog v env.displayStr ++
        ([Event.destroy env.testDbName, Event.executeCreate env.testDbName] ++ q) := by
  unfold clobberBranch
  rw [hd]
  cases env.secondCreateErr with
  | some e2 => exact ⟨[recreationErrLog e2], by simp⟩
  | none => exact ⟨[], by simp⟩

/-- Events of the pre-creation part of `create_test_db`. -/
theorem actionLog_mem (env : Env) (v : Nat) (k : Bool) (ev : Event)
    (h : ev ∈ actionLog env v k) :
    ev = Event.markSkipsEv ∨ ∃ m, ev = Event.log m := by
  unfold actionLog at h
  rcases List.mem_append.1 h with h | h
  · split at h
    · simp at h
      exact Or.inl h
    · simp at h
  · split at h
    · simp at h
      exact Or.inr ⟨_, h⟩
    · simp at h

/-- The pre-creation part contains no serialization call. -/
theorem serializeCount_actionLog (env : Env) (v : Nat) (k : Bool) :
    serializeCount (actionLog env v k) = 0 := by
  unfold serializeCount
  rw [List.countP_eq_zero]
  intro ev hev
  rcases actionLog_mem env v k ev hev with rfl | ⟨m, rfl⟩ <;> simp

/-- Reduction of `create_test_db` when `_create_test_db` returns normally. -/
theorem outer_ret (env : Env) (v : Nat) (a s k : Bool) (t2 : List Event)
    (m : String) (h : _create_test_db env v a k = some (t2, Outcome.ret m)) :
    create_test_db env v a s k =
      some (actionLog env v k ++ t2 ++
        [Event.close, Event.setSettingsName env.dbAlias env.testDbName,
          Event.setConnName env.testDbName] ++
        (if s then [Event.serializeDb] else []) ++
        [Event.createCacheTable env.dbAlias, Event.ensureConnection],
        Outcome.ret env.testDbName) := by
  unfold create_test_db
  rw [h]

/-- Reduction of `create_test_db` when `_create_test_db` exits. -/
theorem outer_exit (env : Env) (v : Nat) (a s k : Bool) (t2 : List Event)
    (c : Nat) (h : _create_test_db env v a k = some (t2, Outcome.exit c)) :
    create_test_db env v a s k =
      some (actionLog env v k ++ t2, Outcome.exit c) := by
  unfold create_test_db
  rw [h]

/-! ### The claims -/

/-- Claim C1: with `autoclobber` and `keepdb` both false and a failing
first creation attempt, `_create_test_db` shows the interactive prompt with
the exact prompt text, exactly once; input exactly `yes` leads to a destroy
followed by a recreate (the destroy always, the recreate once the destroy
succeeds), while any other input exits with code 1 without
`_destroy_test_db` ever being called. -/
theorem c1_prompt_gates_clobber (env : Env) (v : Nat) (e : String)
    (hfail : env.firstCreateErr = some e) :
    ∃ tr out, _create_test_db env v false false = some (tr, out) ∧
      promptTexts tr = [promptText env.testDbName] ∧
      (env.promptInput = ("yes") →
        destroyCalls tr = [env.testDbName] ∧
        (env.destroyErr = none →
          ∃ p q, tr = p ++ [Event.destroy env.testDbName,
            Event.executeCreate env.testDbName] ++ q)) ∧
      (env.promptInput ≠ ("yes") →
        out = Outcome.exit 1 ∧ destroyCalls tr = []) := by
  by_cases hy : env.promptInput = ("yes")
  · refine ⟨_, _, inner_prompt_yes env v e hfail hy, ?_, ?_, ?_⟩
    · rw [promptTexts_append, clobberBranch_promptTexts]
      simp [promptTexts, creationErrLog]
    · intro _
      refine ⟨?_, ?_⟩
      · rw [destroyCalls_append, clobberBranch_destroyCalls]
        simp [destroyCalls, creationErrLog]
      · intro hd
        obtain ⟨q, hq⟩ := clobberBranch_destroy_then_create env v hd
        refine ⟨[Event.executeCreate env.testDbName, creationErrLog e,
          Event.prompt (promptText env.testDbName)] ++ destroyLog v env.displayStr,
          q, ?_⟩
        rw [hq]
        simp
    · intro hn
      exact absurd hy hn
  · refine ⟨_, _, inner_prompt_no env v e hfail hy, ?_, ?_, ?_⟩
    · simp [promptTexts, creationErrLog]
    · intro hyy
      exact absurd hyy hy
    · intro _
      exact ⟨rfl, by simp [destroyCalls, creationErrLog]⟩

/-- Claim C1 witness. -/
theorem c1_witness :
    ∃ tr out,
      _create_test_db (Env.mk ("tdb") ("default") ("disp") (some ("boom"))
        ("no") none none true) 1 false false = some (tr, out) ∧
      promptTexts tr = [promptText ("tdb")] ∧
      (("no" : String) = ("yes") →
        destroyCalls tr = [("tdb")] ∧
        ((none : Option String) = none →
          ∃ p q, tr = p ++ [Event.destroy ("tdb"),
            Event.executeCreate ("tdb")] ++ q)) ∧
      (("no" : String) ≠ ("yes") →
        out = Outcome.exit 1 ∧ destroyCalls tr = []) :=
  c1_prompt_gates_clobber
    (Env.mk ("tdb") ("default") ("disp") (some ("boom")) ("no") none none true)
    1 ("boom") rfl

/-- Claim C2: when the first creation fails, the disposition is affirmative
(`autoclobber` set or input exactly `yes`), the destroy succeeds and the
second creation attempt fails, `_create_test_db` exits with code 2 having
called `_destroy_test_db` exactly once. -/
theorem c2_second_failure_exit2 (env : Env) (v : Nat) (a : Bool) (e e2 : String)
    (hfail : env.firstCreateErr = some e)
    (haff : a = true ∨ env.promptInput = ("yes"))
    (hd : env.destroyErr = none)
    (hs : env.secondCreateErr = some e2) :
    ∃ tr, _create_test_db env v a false = some (tr, Outcome.exit 2) ∧
      destroyCalls tr = [env.testDbName] := by
  have hcb : (clobberBranch env v).2 = Outcome.exit 2 := by
    simp [clobberBranch, hd, hs]
  cases a with
  | true =>
    have h := inner_autoclobber env v e hfail
    rw [hcb] at h
    refine ⟨_, h, ?_⟩
    rw [destroyCalls_append, clobberBranch_destroyCalls]
    simp [destroyCalls, creationErrLog]
  | false =>
    have hy : env.promptInput = ("yes") := haff.resolve_left (by simp)
    have h := inner_prompt_yes env v e hfail hy
    rw [hcb] at h
    refine ⟨_, h, ?_⟩
    rw [destroyCalls_append, clobberBranch_destroyCalls]
    simp [destroyCalls, creationErrLog]

/-- Claim C2 witness. -/
theorem c2_witness :
    ∃ tr,
      _create_test_db (Env.mk ("tdb") ("default") ("disp") (some ("boom"))
        ("yes") none (some ("again")) false) 1 false false =
        some (tr, Outcome.exit 2) ∧
      destroyCalls tr = [("tdb")] :=
  c2_second_failure_exit2
    (Env.mk ("tdb") ("default") ("disp") (some ("boom")) ("yes") none
      (some ("again")) false)
    1 false ("boom") ("again") rfl (Or.inr rfl) rfl rfl

/-- Claim C3: with `keepdb` set, `_create_test_db` never calls
`_destroy_test_db`, and even when the creation attempt fails it returns the
test database name as-is, with no log message, no prompt, and no exit. -/
theorem c3_keepdb_swallows (env : Env) (v : Nat) (a : Bool) :
    ∃ tr, _create_test_db env v a true = some (tr, Outcome.ret env.testDbName) ∧
      destroyCalls tr = [] ∧ logMsgs tr = [] ∧ promptTexts tr = [] := by
  cases hf : env.firstCreateErr with
  | none =>
    exact ⟨_, inner_ok env v a true hf, by simp [destroyCalls],
      by simp [logMsgs], by simp [promptTexts]⟩
  | some e =>
    exact ⟨_, inner_keepdb env v a e hf, by simp [destroyCalls],
      by simp [logMsgs], by simp [promptTexts]⟩

/-- Claim C4: with `autoclobber` set, `_create_test_db` never executes the
interactive prompt, on any path. -/
theorem c4_autoclobber_never_prompts (env : Env) (v : Nat) (k : Bool) :
    ∃ tr out, _create_test_db env v true k = some (tr, out) ∧
      promptTexts tr = [] := by
  cases hf : env.firstCreateErr with
  | none => exact ⟨_, _, inner_ok env v true k hf, by simp [promptTexts]⟩
  | some e =>
    cases k with
    | true => exact ⟨_, _, inner_keepdb env v true e hf, by simp [promptTexts]⟩
    | false =>
      refine ⟨_, _, inner_autoclobber env v e hf, ?_⟩
      rw [promptTexts_append, clobberBranch_promptTexts]
      simp [promptTexts, creationErrLog]

/-- Claim C10: for every combination of `autoclobber` and prompt input, the
disposition expression `autoclobber or confirm == "yes"` never reads the
local variable `confirm` while unassigned: `_create_test_db` never reaches
the `NameError` state (modelled as `none`). -/
theorem c10_disposition_total (env : Env) (v : Nat) (a k : Bool) :
    (_create_test_db env v a k).isSome = true := by
  cases hf : env.firstCreateErr with
  | none =>
    rw [inner_ok env v a k hf]
    rfl
  | some e =>
    cases k with
    | true =>
      rw [inner_keepdb env v a e hf]
      rfl
    | false =>
      cases a with
      | true =>
        rw [inner_autoclobber env v e hf]
        rfl
      | false =>
        by_cases hy : env.promptInput = ("yes")
        · rw [inner_prompt_yes env v e hf hy]
          rfl
        · rw [inner_prompt_no env v e hf hy]
          rfl

/-- Claim C5: a returning `create_test_db` invocation calls
`serialize_db_to_string` exactly once when `serialize` is true and never
when it is false. -/
theorem c5_serialize_iff (env : Env) (v : Nat) (a s k : Bool)
    (tr : List Event) (n : String)
    (h : create_test_db env v a s k = some (tr, Outcome.ret n)) :
    serializeCount tr = if s then 1 else 0 := by
  rcases hin : _create_test_db env v a k with _ | ⟨t2, out2⟩
  · unfold create_test_db at h
    rw [hin] at h
    exact absurd h (by simp)
  · cases out2 with
    | exit c =>
      rw [outer_exit env v a s k t2 c hin] at h
      simp at h
    | ret m =>
      rw [outer_ret env v a s k t2 m hin] at h
      have h' := Option.some.inj h
      have hL := congrArg Prod.fst h'
      subst hL
      rw [serializeCount_append, serializeCount_append, serializeCount_append,
        serializeCount_append, serializeCount_actionLog,
        serializeCount_zero_of_basic t2 (inner_all_basic env v a k t2 _ hin)]
      cases s <;> simp [serializeCount]

/-- Claim C5 witness. -/
theorem c5_witness :
    serializeCount [Event.log ("Creating test database for alias disp..."),
      Event.executeCreate ("tdb"), Event.close,
      Event.setSettingsName ("default") ("tdb"), Event.setConnName ("tdb"),
      Event.serializeDb, Event.createCacheTable ("default"),
      Event.ensureConnection] = if true then 1 else 0 :=
  c5_serialize_iff
    (Env.mk ("tdb") ("default") ("disp") none ("x") none none false)
    1 false true false
    [Event.log ("Creating test database for alias disp..."),
      Event.executeCreate ("tdb"), Event.close,
      Event.setSettingsName ("default") ("tdb"), Event.setConnName ("tdb"),
      Event.serializeDb, Event.createCacheTable ("default"),
      Event.ensureConnection] ("tdb") (by decide)

/-- Claim C6: a returning `create_test_db` invocation returns the test
database name, and the trace contains the connection close immediately
followed by the updates of `settings.DATABASES[alias]["NAME"]` and of
`connection.settings_dict["NAME"]` to that same name (so the close happens
before both updates). -/
theorem c6_rename_after_close (env : Env) (v : Nat) (a s k : Bool)
    (tr : List Event) (n : String)
    (h : create_test_db env v a s k = some (tr, Outcome.ret n)) :
    n = env.testDbName ∧
      ∃ p q, tr = p ++ [Event.close,
        Event.setSettingsName env.dbAlias env.testDbName,
        Event.setConnName env.testDbName] ++ q := by
  rcases hin : _create_test_db env v a k with _ | ⟨t2, out2⟩
  · unfold create_test_db at h
    rw [hin] at h
    exact absurd h (by simp)
  · cases out2 with
    | exit c =>
      rw [outer_exit env v a s k t2 c hin] at h
      simp at h
    | ret m =>
      rw [outer_ret env v a s k t2 m hin] at h
      have h' := Option.some.inj h
      injection h' with hL hout
      refine ⟨?_, ?_⟩
      · injection hout with hn
        exact hn.symm
      · refine ⟨actionLog env v k ++ t2,
          (if s then [Event.serializeDb] else []) ++
            [Event.createCacheTable env.dbAlias, Event.ensureConnection], ?_⟩
        rw [← hL]
        simp

/-- Claim C6 witness. -/
theorem c6_witness :
    (("tdb") : String) =
        (Env.mk ("tdb") ("default") ("disp") none ("x") none none false).testDbName ∧
      ∃ p q, [Event.log ("Creating test database for alias disp..."),
        Event.executeCreate ("tdb"), Event.close,
        Event.setSettingsName ("default") ("tdb"), Event.setConnName ("tdb"),
        Event.serializeDb, Event.createCacheTable ("default"),
        Event.ensureConnection] = p ++ [Event.close,
          Event.setSettingsName ("default") ("tdb"),
          Event.setConnName ("tdb")] ++ q :=
  c6_rename_after_close
    (Env.mk ("tdb") ("default") ("disp") none ("x") none none false)
    1 false true false
    [Event.log ("Creating test database for alias disp..."),
      Event.executeCreate ("tdb"), Event.close,
      Event.setSettingsName ("default") ("tdb"), Event.setConnName ("tdb"),
      Event.serializeDb, Event.createCacheTable ("default"),
      Event.ensureConnection] ("tdb") (by decide)

/-- Claim C8 counterexample: at a concrete happy-path invocation with
`serialize=true`, the serialization event occurs before any cache-table
event (the code runs `serialize_db_to_string` first and
`call_command('createcachetable')` after), so the claimed order
"cache-table step precedes the Snapshot Serializer step" is false. -/
theorem c8_counterexample :
    create_test_db (Env.mk ("tdb") ("default") ("disp") none ("x")
        none none true) 1 false true false =
      some ([Event.markSkipsEv,
        Event.log ("Creating test database for alias disp..."),
        Event.executeCreate ("tdb"), Event.close,
        Event.setSettingsName ("default") ("tdb"), Event.setConnName ("tdb")] ++
        [Event.serializeDb] ++
        [Event.createCacheTable ("default"), Event.ensureConnection],
        Outcome.ret ("tdb")) ∧
      Event.createCacheTable ("default") ∈
        [Event.createCacheTable ("default"), Event.ensureConnection] ∧
      Event.createCacheTable ("default") ∉
        [Event.markSkipsEv,
          Event.log ("Creating test database for alias disp..."),
          Event.executeCreate ("tdb"), Event.close,
          Event.setSettingsName ("default") ("tdb"),
          Event.setConnName ("tdb")] := by
  refine ⟨by decide, by decide, by decide⟩

/-- Claim C8 (amended): within each returning `create_test_db` invocation
with `serialize=true` the steps occur in the order: skip registration (when
activated, it is the very first step), then creation/reuse, then the
close-and-rename of the connection, then snapshot serialization, then
provisioning of the auxiliary cache table, then the final connectivity
check, then return — the Snapshot Serializer step precedes the cache-table
step, not the other way around. -/
theorem c8_amended_order (env : Env) (v : Nat) (a k : Bool)
    (tr : List Event) (n : String)
    (h : create_test_db env v a true k = some (tr, Outcome.ret n)) :
    (∃ p, tr = p ++ [Event.serializeDb,
        Event.createCacheTable env.dbAlias, Event.ensureConnection] ∧
      Event.serializeDb ∉ p ∧ (∀ al, Event.createCacheTable al ∉ p)) ∧
    (env.runningBackendTests = true → ∃ q, tr = Event.markSkipsEv :: q) := by
  rcases hin : _create_test_db env v a k with _ | ⟨t2, out2⟩
  · unfold create_test_db at h
    rw [hin] at h
    exact absurd h (by simp)
  · cases out2 with
    | exit c =>
      rw [outer_exit env v a true k t2 c hin] at h
      simp at h
    | ret m =>
      rw [outer_ret env v a true k t2 m hin] at h
      have h' := Option.some.inj h
      injection h' with hL hout
      have hbasic := inner_all_basic env v a k t2 _ hin
      obtain ⟨hs2, _, hc2, _⟩ := admin_not_mem_of_basic t2 hbasic
      constructor
      · refine ⟨actionLog env v k ++ t2 ++ [Event.close,
          Event.setSettingsName env.dbAlias env.testDbName,
          Event.setConnName env.testDbName], ?_, ?_, ?_⟩
        · rw [← hL]
          simp
        · intro hm
          rcases List.mem_append.1 hm with hm | hm
          · rcases List.mem_append.1 hm with hm | hm
            · rcases actionLog_mem env v k _ hm with h1 | ⟨mm, h1⟩ <;> simp at h1
            · exact hs2 hm
          · simp at hm
        · intro al hm
          rcases List.mem_append.1 hm with hm | hm
          · rcases List.mem_append.1 hm with hm | hm
            · rcases actionLog_mem env v k _ hm with h1 | ⟨mm, h1⟩ <;> simp at h1
            · exact hc2 al hm
          · simp at hm
      · intro hrun
        refine ⟨(if v ≥ 1 then
            [Event.log ((if k then ("Using existing") else ("Creating")) ++
              (" test database for alias ") ++ env.displayStr ++ ("..."))]
          else []) ++ t2 ++ [Event.close,
            Event.setSettingsName env.dbAlias env.testDbName,
            Event.setConnName env.testDbName] ++ [Event.serializeDb] ++
          [Event.createCacheTable env.dbAlias, Event.ensureConnection], ?_⟩
        rw [← hL]
        unfold actionLog
        rw [hrun]
        simp

/-- Claim C8 (amended) witness. -/
theorem c8_amended_witness :
    (∃ p, [Event.markSkipsEv,
        Event.log ("Creating test database for alias disp..."),
        Event.executeCreate ("tdb"), Event.close,
        Event.setSettingsName ("default") ("tdb"), Event.setConnName ("tdb"),
        Event.serializeDb, Event.createCacheTable ("default"),
        Event.ensureConnection] = p ++ [Event.serializeDb,
          Event.createCacheTable ("default"), Event.ensureConnection] ∧
      Event.serializeDb ∉ p ∧ (∀ al, Event.createCacheTable al ∉ p)) ∧
    ((Env.mk ("tdb") ("default") ("disp") none ("x") none none
        true).runningBackendTests = true →
      ∃ q, [Event.markSkipsEv,
        Event.log ("Creating test database for alias disp..."),
        Event.executeCreate ("tdb"), Event.close,
        Event.setSettingsName ("default") ("tdb"), Event.setConnName ("tdb"),
        Event.serializeDb, Event.createCacheTable ("default"),
        Event.ensureConnection] = Event.markSkipsEv :: q) :=
  c8_amended_order
    (Env.mk ("tdb") ("default") ("disp") none ("x") none none true)
    1 false false
    [Event.markSkipsEv,
      Event.log ("Creating test database for alias disp..."),
      Event.executeCreate ("tdb"), Event.close,
      Event.setSettingsName ("default") ("tdb"), Event.setConnName ("tdb"),
      Event.serializeDb, Event.createCacheTable ("default"),
      Event.ensureConnection] ("tdb") (by decide)

/-! ### Lemmas about `mark_skips` -/

/-- Pointwise action of one `mark_skips` iteration. -/
theorem markSkipsEntry_apply (apps : List String) (st : String × String → Method)
    (t : String) (key : String × String) :
    markSkipsEntry apps st t key =
      if testApp t ∈ apps ∧ key = skipKey t then
        Method.skipWrapper skipReason (st key)
      else st key := by
  by_cases ha : testApp t ∈ apps
  · by_cases hk : key = skipKey t
    · simp [markSkipsEntry, ha, hk]
    · simp [markSkipsEntry, ha, hk]
  · simp [markSkipsEntry, ha]

/-- What the `mark_skips` fold does to the method at one key, as a fold over
the entries alone. -/
def markAt (apps : List String) (tests : List String) (key : String × String)
    (m : Method) : Method :=
  tests.foldl (fun acc t =>
    if testApp t ∈ apps ∧ key = skipKey t then
      Method.skipWrapper skipReason acc
    else acc) m

/-- The state after `mark_skips`, at one key, depends only on the previous
method at that key. -/
theorem mark_skips_pointwise (apps tests : List String)
    (st : String × String → Method) (key : String × String) :
    mark_skips apps tests st key = markAt apps tests key (st key) := by
  induction tests generalizing st with
  | nil => rfl
  | cons t ts ih =>
    show mark_skips apps ts (markSkipsEntry apps st t) key = _
    rw [ih (markSkipsEntry apps st t), markSkipsEntry_apply]
    rfl

/-- Whether some entry of the skip list targets `key` with its app
installed. -/
def touchedB (apps tests : List String) (key : String × String) : Bool :=
  tests.any (fun t => decide (testApp t ∈ apps) && decide (key = skipKey t))

/-- Observable behaviour after the per-key fold: skipped with the fixed
reason when some entry targets the key, the previous behaviour otherwise. -/
theorem invoke_markAt (apps tests : List String) (key : String × String)
    (m : Method) :
    invoke (markAt apps tests key m) =
      if touchedB apps tests key then InvokeResult.skipped skipReason
      else invoke m := by
  induction tests generalizing m with
  | nil => simp [markAt, touchedB]
  | cons t ts ih =>
    have step : markAt apps (t :: ts) key m = markAt apps ts key
        (if testApp t ∈ apps ∧ key = skipKey t then
          Method.skipWrapper skipReason m
        else m) := rfl
    rw [step, ih]
    by_cases h : testApp t ∈ apps ∧ key = skipKey t
    · have ht : touchedB apps (t :: ts) key = true := by
        simp [touchedB, List.any_cons, h.1, h.2]
      rw [if_pos h, ht]
      simp [invoke]
    · have hb : (decide (testApp t ∈ apps) && decide (key = skipKey t)) = false := by
        by_cases h1 : testApp t ∈ apps
        · have h2 : ¬ key = skipKey t := fun h2 => h ⟨h1, h2⟩
          simp [h2]
        · simp [h1]
      have ht : touchedB apps (t :: ts) key = touchedB apps ts key := by
        simp [touchedB, List.any_cons, hb]
      rw [if_neg h, ht]

/-- Claim C7 counterexample: registering the same skip twice does
double-wrap: after two `mark_skips` runs the stored method at the entry's
key is a skip wrapper around a skip wrapper, not equal to the single
wrapper left by one run. -/
theorem c7_counterexample :
    ¬ (mark_skips [("app")] [("app.Tests.test_x")]
        (mark_skips [("app")] [("app.Tests.test_x")]
          (fun _ => Method.original 0)) ((("app.Tests")), (("test_x"))) =
      mark_skips [("app")] [("app.Tests.test_x")]
        (fun _ => Method.original 0) ((("app.Tests")), (("test_x")))) := by
  decide

/-- Claim C7 (amended): invoking `mark_skips` twice does double-wrap the
affected methods (the stored method objects differ), but it is behaviorally
idempotent: invoking any method after two runs gives the same observable
result (same skip report, or same original behaviour) as after one run. -/
theorem c7_behavioral_idempotence (apps tests : List String)
    (st : String × String → Method) (key : String × String) :
    invoke (mark_skips apps tests (mark_skips apps tests st) key) =
      invoke (mark_skips apps tests st key) := by
  simp only [mark_skips_pointwise, invoke_markAt]
  by_cases h : touchedB apps tests key <;> simp [h]

/-- Claim C9: a skip entry whose application segment is not among the
installed apps is a no-op (the whole method table is untouched, and no
error is possible); for an installed application the method at the entry's
key is replaced by the skip wrapper, whose invocation reports the skip
reason instead of running the original behaviour, and every other key is
untouched. -/
theorem c9_skip_registration (apps : List String) (t : String)
    (st : String × String → Method) :
    (testApp t ∉ apps → mark_skips apps [t] st = st) ∧
    (testApp t ∈ apps →
      mark_skips apps [t] st (skipKey t) =
        Method.skipWrapper skipReason (st (skipKey t)) ∧
      invoke (mark_skips apps [t] st (skipKey t)) =
        InvokeResult.skipped skipReason ∧
      ∀ key, key ≠ skipKey t → mark_skips apps [t] st key = st key) := by
  constructor
  · intro ha
    show markSkipsEntry apps st t = st
    unfold markSkipsEntry
    rw [if_neg ha]
  · intro ha
    refine ⟨?_, ?_, ?_⟩
    · show markSkipsEntry apps st t (skipKey t) = _
      simp [markSkipsEntry, ha]
    · show invoke (markSkipsEntry apps st t (skipKey t)) = _
      simp [markSkipsEntry, ha, invoke]
    · intro key hk
      show markSkipsEntry apps st t key = st key
      simp [markSkipsEntry, ha, hk]

/-- Claim C9 witness. -/
theorem c9_witness :
    mark_skips [("other")] [("app.Tests.test_x")]
        (fun _ => Method.original 0) = (fun _ => Method.original 0) ∧
      invoke (mark_skips [("app")] [("app.Tests.test_x")]
        (fun _ => Method.original 0) (skipKey ("app.Tests.test_x"))) =
        InvokeResult.skipped skipReason :=
  ⟨(c9_skip_registration [("other")] ("app.Tests.test_x")
      (fun _ => Method.original 0)).1 (by decide),
    ((c9_skip_registration [("app")] ("app.Tests.test_x")
      (fun _ => Method.original 0)).2 (by decide)).2.1⟩

end SpannerCreation

